import Mathlib

/-!
Shallow embedding of the status-resolution query engine of jackal_bot
(src/jackal_bot.py): the functions get_medical_status, search_user,
search_pes and show_all, over the two sheet reads modelled as already
performed fallible reads (an Except value), with the current date passed
as an explicit parameter.

Python exceptions are modelled with an Except monad written out as
explicit matches: a dictionary access row[k] is dictGet, which raises
KeyError when the key is absent; datetime.strptime with format
DD/MM/YYYY is strptimeE, which raises ValueError on a malformed string;
a failing sheet read is an Except.error input.  The try/except wrapper
of get_medical_status maps any error to None, exactly as in the source.
-/

/-- A calendar date as produced by datetime.date: compared
lexicographically by (year, month, day). -/
structure Date where
  year : Nat
  month : Nat
  day : Nat
deriving DecidableEq, Repr

/-- Python date comparison a <= b (lexicographic on year, month, day). -/
def dateLe (a b : Date) : Bool :=
  if a.year ≠ b.year then decide (a.year < b.year)
  else if a.month ≠ b.month then decide (a.month < b.month)
  else decide (a.day ≤ b.day)

/-- Python date comparison a < b (lexicographic on year, month, day). -/
def dateLt (a b : Date) : Bool :=
  if a.year ≠ b.year then decide (a.year < b.year)
  else if a.month ≠ b.month then decide (a.month < b.month)
  else decide (a.day < b.day)

/-- Gregorian leap-year rule used by datetime. -/
def isLeapYear (y : Nat) : Bool :=
  y % 4 == 0 && (y % 100 != 0 || y % 400 == 0)

/-- Number of days of a month, as validated by datetime. -/
def daysInMonth (y m : Nat) : Nat :=
  if m = 2 then (if isLeapYear y then 29 else 28)
  else if m = 4 ∨ m = 6 ∨ m = 9 ∨ m = 11 then 30
  else 31

/-- Decimal value of a run of digit characters. -/
def charsToNat (l : List Char) : Nat :=
  l.foldl (fun n c => n * 10 + (c.toNat - 48)) 0

/-- One numeric field of a strptime format: a nonempty run of at most
maxLen digits. -/
def parseDateField (maxLen : Nat) (l : List Char) : Option Nat :=
  if l.length = 0 ∨ maxLen < l.length ∨ ¬ l.all Char.isDigit then none
  else some (charsToNat l)

/-- Split a character list on a separator character, keeping empty
pieces, as str.split does. -/
def splitOnChar (sep : Char) : List Char → List (List Char)
  | [] => [[]]
  | c :: cs =>
    match splitOnChar sep cs with
    | [] => if c = sep then [[], []] else [[c]]
    | h :: t => if c = sep then [] :: h :: t else (c :: h) :: t

/-- Uppercasing as str.upper does on ASCII text. -/
def pyUpper (s : String) : String :=
  ⟨s.data.map Char.toUpper⟩

/-- Model of datetime.datetime.strptime(s, "%d/%m/%Y").date(): day and
month of one or two digits, year of up to four digits, and the triple
must be a real calendar date; otherwise the parse fails (ValueError). -/
def strptimeDMY (s : String) : Option Date :=
  match splitOnChar '/' s.data with
  | [ds, ms, ys] =>
    match parseDateField 2 ds, parseDateField 2 ms, parseDateField 4 ys with
    | some d, some m, some y =>
      if 1 ≤ y ∧ 1 ≤ m ∧ m ≤ 12 ∧ 1 ≤ d ∧ d ≤ daysInMonth y m then
        some ⟨y, m, d⟩
      else none
    | _, _, _ => none
  | _ => none

/-- Python exceptions that can occur in the embedded code. -/
inductive PyErr where
  | keyError : String → PyErr
  | valueError : String → PyErr
  | apiError : PyErr
deriving DecidableEq, Repr

/-- A sheet row as returned by get_all_records: a mapping from column
name to cell string. -/
abbrev Row := List (String × String)

/-- Python dictionary access row[k]: the value, or a KeyError. -/
def dictGet (row : Row) (k : String) : Except PyErr String :=
  match List.lookup k row with
  | some v => Except.ok v
  | none => Except.error (PyErr.keyError k)

/-- strptime as an exception-raising operation. -/
def strptimeE (s : String) : Except PyErr Date :=
  match strptimeDMY s with
  | some d => Except.ok d
  | none => Except.error (PyErr.valueError s)

/-- The loop of get_medical_status, already over the reversed form data:
for each row, compare row with the queried SYN NO, parse the two dates,
test start <= today <= end, and return the formatted status on the
first active hit.  Any raised exception propagates. -/
def get_medical_status_scan (synNo : String) (today : Date) :
    List Row → Except PyErr (Option String)
  | [] => Except.ok none
  | row :: rest =>
    match dictGet row "SYN NO" with
    | Except.error e => Except.error e
    | Except.ok s =>
      if s = synNo then
        match dictGet row "Start Date" with
        | Except.error e => Except.error e
        | Except.ok sdS =>
          match dictGet row "End Date" with
          | Except.error e => Except.error e
          | Except.ok edS =>
            match strptimeE sdS with
            | Except.error e => Except.error e
            | Except.ok startDate =>
              match strptimeE edS with
              | Except.error e => Except.error e
              | Except.ok endDate =>
                if dateLe startDate today && dateLe today endDate then
                  match dictGet row "Medical Status" with
                  | Except.error e => Except.error e
                  | Except.ok ms =>
                    Except.ok (some ("STATUS: " ++ ms ++ " (" ++ sdS ++ " - " ++ edS ++ ")"))
                else get_medical_status_scan synNo today rest
      else get_medical_status_scan synNo today rest

/-- get_medical_status(syn_no): read the form sheet, scan it in reverse
submission order, and return the first active status; the surrounding
try/except converts every exception (failed read included) to None. -/
def get_medical_status (synNo : String) (formRead : Except PyErr (List Row))
    (today : Date) : Option String :=
  match
    (match formRead with
     | Except.error e => Except.error e
     | Except.ok formData => get_medical_status_scan synNo today formData.reverse)
  with
  | Except.ok v => v
  | Except.error _ => none

/-- The loop of search_user: first row whose SYN NO equals the
uppercased query yields the formatted user details. -/
def search_user_scan (synNo : String) : List Row → Except PyErr (Option String)
  | [] => Except.ok none
  | row :: rest =>
    match dictGet row "SYN NO" with
    | Except.error e => Except.error e
    | Except.ok s =>
      if s = synNo then
        match dictGet row "RANK" with
        | Except.error e => Except.error e
        | Except.ok rank =>
          match dictGet row "NAME" with
          | Except.error e => Except.error e
          | Except.ok name =>
            match dictGet row "PES" with
            | Except.error e => Except.error e
            | Except.ok pes =>
              Except.ok (some (rank ++ " " ++ name ++ "\nPES: " ++ pes))
      else search_user_scan synNo rest

/-- search_user handler: the text of the single reply it sends, or the
exception it lets propagate.  args are the command arguments. -/
def search_user (args : List String) (sheetRead : Except PyErr (List Row))
    (formRead : Except PyErr (List Row)) (today : Date) : Except PyErr String :=
  match args with
  | [] => Except.ok "Usage: /search SYN_NO"
  | arg0 :: _ =>
    let synNo := pyUpper arg0
    match sheetRead with
    | Except.error e => Except.error e
    | Except.ok data =>
      match search_user_scan synNo data with
      | Except.error e => Except.error e
      | Except.ok none => Except.ok "SYN NO not found."
      | Except.ok (some userDetails) =>
        match get_medical_status synNo formRead today with
        | some latestStatus => Except.ok (userDetails ++ "\n" ++ latestStatus)
        | none => Except.ok userDetails

/-- The loop of search_pes: for each row whose PES equals the uppercased
query, append the summary block, the status line when present, and a
blank-line separator. -/
def search_pes_scan (pesCode : String) (formRead : Except PyErr (List Row))
    (today : Date) : List Row → Except PyErr String
  | [] => Except.ok ""
  | row :: rest =>
    match dictGet row "PES" with
    | Except.error e => Except.error e
    | Except.ok p =>
      if p = pesCode then
        match dictGet row "SYN NO" with
        | Except.error e => Except.error e
        | Except.ok synNo =>
          let status := get_medical_status synNo formRead today
          match dictGet row "RANK" with
          | Except.error e => Except.error e
          | Except.ok rank =>
            match dictGet row "NAME" with
            | Except.error e => Except.error e
            | Except.ok name =>
              let block := rank ++ " " ++ name ++ "\nPES: " ++ p
              let block :=
                match status with
                | some st => block ++ "\n" ++ st
                | none => block
              match search_pes_scan pesCode formRead today rest with
              | Except.error e => Except.error e
              | Except.ok restResp => Except.ok (block ++ "\n\n" ++ restResp)
      else search_pes_scan pesCode formRead today rest

/-- search_pes handler: the text of the single reply it sends, or the
exception it lets propagate. -/
def search_pes (args : List String) (sheetRead : Except PyErr (List Row))
    (formRead : Except PyErr (List Row)) (today : Date) : Except PyErr String :=
  match args with
  | [] => Except.ok "Usage: /pes PES_CODE"
  | arg0 :: _ =>
    let pesCode := pyUpper arg0
    match sheetRead with
    | Except.error e => Except.error e
    | Except.ok data =>
      match search_pes_scan pesCode formRead today data with
      | Except.error e => Except.error e
      | Except.ok response =>
        Except.ok (if response = "" then "No personnel found with this PES status." else response)

/-- The loop of show_all: one block per roster row, unconditionally. -/
def show_all_scan (formRead : Except PyErr (List Row)) (today : Date) :
    List Row → Except PyErr String
  | [] => Except.ok ""
  | row :: rest =>
    match dictGet row "SYN NO" with
    | Except.error e => Except.error e
    | Except.ok synNo =>
      let status := get_medical_status synNo formRead today
      match dictGet row "RANK" with
      | Except.error e => Except.error e
      | Except.ok rank =>
        match dictGet row "NAME" with
        | Except.error e => Except.error e
        | Except.ok name =>
          match dictGet row "PES" with
          | Except.error e => Except.error e
          | Except.ok pes =>
            let block := rank ++ " " ++ name ++ "\nPES: " ++ pes
            let block :=
              match status with
              | some st => block ++ "\n" ++ st
              | none => block
            match show_all_scan formRead today rest with
            | Except.error e => Except.error e
            | Except.ok restResp => Except.ok (block ++ "\n\n" ++ restResp)

/-- show_all handler: the text of the single reply it sends, or the
exception it lets propagate. -/
def show_all (sheetRead : Except PyErr (List Row))
    (formRead : Except PyErr (List Row)) (today : Date) : Except PyErr String :=
  match sheetRead with
  | Except.error e => Except.error e
  | Except.ok data => show_all_scan formRead today data

/-!
Derived predicates used to state the properties, all computed from the
same row representation the code reads.
-/

/-- Value of a column, with the empty string for an absent column (used
only in statements whose hypotheses make the column present). -/
def rowGet (row : Row) (k : String) : String :=
  (List.lookup k row).getD ""

/-- The row carries the queried identifier. -/
def rowSynIs (synNo : String) (row : Row) : Bool :=
  List.lookup "SYN NO" row == some synNo

/-- The row parses to an interval containing today (inclusive at both
ends), exactly the test of the scan. -/
def rowActive (today : Date) (row : Row) : Bool :=
  match strptimeDMY (rowGet row "Start Date"), strptimeDMY (rowGet row "End Date") with
  | some s, some e => dateLe s today && dateLe today e
  | _, _ => false

/-- The row parses to an interval that misses today: end before today or
start after today. -/
def rowInactive (today : Date) (row : Row) : Bool :=
  match strptimeDMY (rowGet row "Start Date"), strptimeDMY (rowGet row "End Date") with
  | some s, some e => dateLt e today || dateLt today s
  | _, _ => false

/-- A qualifying entry of the resolution claim: carries the identifier
and is currently active. -/
def rowQualifies (synNo : String) (today : Date) (row : Row) : Bool :=
  rowSynIs synNo row && rowActive today row

/-- A well-formed StatusLog row: all four expected columns present and
both dates parseable. -/
def goodRow (row : Row) : Bool :=
  (List.lookup "SYN NO" row).isSome &&
  (List.lookup "Start Date" row).isSome &&
  (List.lookup "End Date" row).isSome &&
  (List.lookup "Medical Status" row).isSome &&
  (strptimeDMY (rowGet row "Start Date")).isSome &&
  (strptimeDMY (rowGet row "End Date")).isSome

/-- The status line the resolver formats for a winning row. -/
def fmtRow (row : Row) : String :=
  "STATUS: " ++ rowGet row "Medical Status" ++ " (" ++
    rowGet row "Start Date" ++ " - " ++ rowGet row "End Date" ++ ")"

/-- A roster row with all four expected columns present. -/
def rowComplete (row : Row) : Bool :=
  (List.lookup "SYN NO" row).isSome &&
  (List.lookup "RANK" row).isSome &&
  (List.lookup "NAME" row).isSome &&
  (List.lookup "PES" row).isSome

/-- The roster row carries a SYN NO column whose value differs from the
uppercased query. -/
def rowSynDiffers (q : String) (row : Row) : Bool :=
  match List.lookup "SYN NO" row with
  | some v => v != pyUpper q
  | none => false

/-- The text of one composed block before its separator: summary line,
plus the status line when a status resolves. -/
def composeBase (formRead : Except PyErr (List Row)) (today : Date) (row : Row) : String :=
  let base := rowGet row "RANK" ++ " " ++ rowGet row "NAME" ++ "\nPES: " ++ rowGet row "PES"
  match get_medical_status (rowGet row "SYN NO") formRead today with
  | some st => base ++ "\n" ++ st
  | none => base

/-- The composed block of the category and list-all queries: summary
line, status line when a status resolves, and the blank-line
separator. -/
def composeBlock (formRead : Except PyErr (List Row)) (today : Date) (row : Row) : String :=
  composeBase formRead today row ++ "\n\n"

/-- Concatenation of blocks in order. -/
def joinBlocks (l : List String) : String :=
  l.foldr (fun a b => a ++ b) ""

/-!  Concrete fixture rows (from the worked examples of the spec). -/

/-- StatusLog entry MC 01/01/2024 - 10/01/2024 for A123. -/
def rowMC : Row :=
  [("SYN NO", "A123"), ("Medical Status", "MC"),
   ("Start Date", "01/01/2024"), ("End Date", "10/01/2024")]

/-- StatusLog entry LD 05/01/2024 - 15/01/2024 for A123, submitted
after rowMC. -/
def rowLD : Row :=
  [("SYN NO", "A123"), ("Medical Status", "LD"),
   ("Start Date", "05/01/2024"), ("End Date", "15/01/2024")]

/-- StatusLog entry for A123 with an unparseable start date. -/
def rowBadDate : Row :=
  [("SYN NO", "A123"), ("Medical Status", "MC"),
   ("Start Date", "not-a-date"), ("End Date", "10/01/2024")]

/-- Roster row for A123. -/
def rosterA : Row :=
  [("SYN NO", "A123"), ("RANK", "CPL"), ("NAME", "Tan"), ("PES", "B2")]

/-- Roster row for B999. -/
def rosterB : Row :=
  [("SYN NO", "B999"), ("RANK", "SGT"), ("NAME", "Lim"), ("PES", "C1")]

example : strptimeDMY "05/01/2024" = some ⟨2024, 1, 5⟩ := by decide
example : strptimeDMY "not-a-date" = none := by decide
example : get_medical_status "A123" (Except.ok [rowMC, rowLD]) ⟨2024, 1, 7⟩
    = some "STATUS: LD (05/01/2024 - 15/01/2024)" := by decide
example : get_medical_status "A123" (Except.ok [rowMC]) ⟨2024, 1, 11⟩ = none := by decide
example : get_medical_status "A123" (Except.ok [rowMC, rowBadDate]) ⟨2024, 1, 5⟩ = none := by decide
example : search_user ["a123"] (Except.ok [rosterB, rosterA]) (Except.ok [rowMC]) ⟨2024, 1, 5⟩
    = Except.ok "CPL Tan\nPES: B2\nSTATUS: MC (01/01/2024 - 10/01/2024)" := rfl
example : search_pes ["b2"] (Except.ok [rosterB, rosterA]) (Except.ok []) ⟨2024, 1, 5⟩
    = Except.ok "CPL Tan\nPES: B2\n\n" := rfl
example : search_pes ["z9"] (Except.ok [rosterB, rosterA]) (Except.ok []) ⟨2024, 1, 5⟩
    = Except.ok "No personnel found with this PES status." := rfl
example : show_all (Except.ok [rosterB, rosterA]) (Except.ok []) ⟨2024, 1, 5⟩
    = Except.ok "SGT Lim\nPES: C1\n\nCPL Tan\nPES: B2\n\n" := rfl

/-!  Helper lemmas shared by the claim theorems. -/

/-- Strict date order is the negation of the reversed non-strict
order (Python date comparisons form a total order). -/
theorem dateLt_eq_not_dateLe (a b : Date) : dateLt a b = !dateLe b a := by
  unfold dateLt dateLe
  by_cases h1 : a.year = b.year
  · by_cases h2 : a.month = b.month
    · simp only [h1, h2, ne_eq, not_true_eq_false, if_false, ite_not]
      rw [← decide_not]
      exact decide_eq_decide.mpr (Nat.not_le).symm
    · simp only [h1, ne_eq, not_true_eq_false, if_false, h2, Ne.symm h2,
        not_false_eq_true, if_true]
      rw [← decide_not]
      exact decide_eq_decide.mpr (by omega)
  · simp only [ne_eq, h1, Ne.symm h1, not_false_eq_true, if_true]
    rw [← decide_not]
    exact decide_eq_decide.mpr (by omega)

/-- find? returns the head of the filtered list. -/
theorem find?_eq_head?_filter {α : Type} (p : α → Bool) (l : List α) :
    l.find? p = (l.filter p).head? := by
  induction l with
  | nil => rfl
  | cons a l ih =>
    rw [List.find?, List.filter]
    cases h : p a
    · simp only []
      exact ih.trans rfl
    · simp

/-- Scanning a list in reverse and taking the first hit finds the last
match of the original order. -/
theorem find?_reverse_eq_getLast?_filter {α : Type} (p : α → Bool) (l : List α) :
    l.reverse.find? p = (l.filter p).getLast? := by
  rw [find?_eq_head?_filter, List.filter_reverse, List.head?_reverse]

/-- On a log segment whose every row carries the SYN NO column and whose
matching rows are well formed, the scan succeeds and returns the first
qualifying row of the segment, formatted. -/
theorem get_medical_status_scan_eq_find (synNo : String) (today : Date)
    (l : List Row)
    (hk : ∀ r ∈ l, (List.lookup "SYN NO" r).isSome = true)
    (hg : ∀ r ∈ l, rowSynIs synNo r = true → goodRow r = true) :
    get_medical_status_scan synNo today l =
      Except.ok ((l.find? (rowQualifies synNo today)).map fmtRow) := by
  induction l with
  | nil => rfl
  | cons row rest ih =>
    have hk0 := hk row (List.mem_cons_self row rest)
    obtain ⟨s, hs⟩ := Option.isSome_iff_exists.mp hk0
    have hkr : ∀ r ∈ rest, (List.lookup "SYN NO" r).isSome = true :=
      fun r hr => hk r (List.mem_cons_of_mem row hr)
    have hgr : ∀ r ∈ rest, rowSynIs synNo r = true → goodRow r = true :=
      fun r hr => hg r (List.mem_cons_of_mem row hr)
    by_cases hmatch : s = synNo
    · subst hmatch
      have hsyn : rowSynIs s row = true := by simp [rowSynIs, hs]
      have hgood := hg row (List.mem_cons_self row rest) hsyn
      simp only [goodRow, Bool.and_eq_true] at hgood
      obtain ⟨⟨⟨⟨⟨_, h2⟩, h3⟩, h4⟩, h5⟩, h6⟩ := hgood
      obtain ⟨sdS, hsd⟩ := Option.isSome_iff_exists.mp h2
      obtain ⟨edS, hed⟩ := Option.isSome_iff_exists.mp h3
      obtain ⟨ms, hms⟩ := Option.isSome_iff_exists.mp h4
      have hrgS : rowGet row "Start Date" = sdS := by simp [rowGet, hsd]
      have hrgE : rowGet row "End Date" = edS := by simp [rowGet, hed]
      rw [hrgS] at h5
      rw [hrgE] at h6
      obtain ⟨sd, hpsd⟩ := Option.isSome_iff_exists.mp h5
      obtain ⟨ed, hped⟩ := Option.isSome_iff_exists.mp h6
      have hact : rowActive today row = (dateLe sd today && dateLe today ed) := by
        simp [rowActive, hrgS, hrgE, hpsd, hped]
      cases hc : dateLe sd today && dateLe today ed
      · have hq : rowQualifies s today row = false := by
          simp [rowQualifies, hact, hc]
        rw [List.find?, hq]
        rw [get_medical_status_scan]
        simp only [dictGet, hs, strptimeE, hsd, hed, hpsd, hped, if_pos rfl, hc]
        exact ih hkr hgr
      · have hq : rowQualifies s today row = true := by
          simp [rowQualifies, hsyn, hact, hc]
        rw [List.find?, hq]
        rw [get_medical_status_scan]
        simp only [dictGet, hs, strptimeE, hsd, hed, hpsd, hped, if_pos rfl, hc]
        simp [fmtRow, rowGet, hms, hrgS, hrgE, hsd, hed]
    · have hsyn : rowSynIs synNo row = false := by simp [rowSynIs, hs, hmatch]
      have hq : rowQualifies synNo today row = false := by
        simp [rowQualifies, hsyn]
      rw [List.find?, hq]
      rw [get_medical_status_scan]
      simp only [dictGet, hs, if_neg hmatch]
      exact ih hkr hgr

/-- Claim C4: for an identifier with at least one StatusLog entry whose
interval contains today, status resolution returns exactly one resolved
status, the most-recently-submitted qualifying entry (the scan walks the
log in reverse submission order and the first active hit wins), on any
log whose rows carry the SYN NO column and whose matching rows are well
formed. -/
theorem get_medical_status_most_recent (synNo : String) (log : List Row)
    (today : Date)
    (hk : ∀ r ∈ log, (List.lookup "SYN NO" r).isSome = true)
    (hg : ∀ r ∈ log, rowSynIs synNo r = true → goodRow r = true)
    (hex : ∃ r ∈ log, rowQualifies synNo today r = true) :
    ∃ r, (log.filter (rowQualifies synNo today)).getLast? = some r ∧
      get_medical_status synNo (Except.ok log) today = some (fmtRow r) := by
  have hkr : ∀ r ∈ log.reverse, (List.lookup "SYN NO" r).isSome = true :=
    fun r hr => hk r (List.mem_reverse.mp hr)
  have hgr : ∀ r ∈ log.reverse, rowSynIs synNo r = true → goodRow r = true :=
    fun r hr => hg r (List.mem_reverse.mp hr)
  have hscan := get_medical_status_scan_eq_find synNo today log.reverse hkr hgr
  obtain ⟨r0, hr0, hq0⟩ := hex
  have hmem : r0 ∈ log.filter (rowQualifies synNo today) :=
    List.mem_filter.mpr ⟨hr0, hq0⟩
  have hne : log.filter (rowQualifies synNo today) ≠ [] :=
    List.ne_nil_of_mem hmem
  obtain ⟨r, hr⟩ :=
    Option.isSome_iff_exists.mp (List.getLast?_isSome.mpr hne)
  refine ⟨r, hr, ?_⟩
  have : get_medical_status synNo (Except.ok log) today =
      ((log.reverse.find? (rowQualifies synNo today)).map fmtRow) := by
    rw [get_medical_status, hscan]
  rw [this, find?_reverse_eq_getLast?_filter, hr]
  rfl

/-- Witness for C4, the worked example of the spec: two overlapping
entries for A123, the later-submitted LD entry wins on 07/01/2024. -/
theorem get_medical_status_most_recent_witness :
    get_medical_status "A123" (Except.ok [rowMC, rowLD]) ⟨2024, 1, 7⟩
      = some "STATUS: LD (05/01/2024 - 15/01/2024)" := by
  obtain ⟨r, hr, hres⟩ :=
    get_medical_status_most_recent "A123" [rowMC, rowLD] ⟨2024, 1, 7⟩
      (by decide) (by decide) (by decide)
  have hlast : ([rowMC, rowLD].filter (rowQualifies "A123" ⟨2024, 1, 7⟩)).getLast?
      = some rowLD := rfl
  rw [hlast] at hr
  cases hr
  exact hres

/-- If every matching row of a log segment parses to an interval missing
today, a successful scan of that segment yields no status. -/
theorem get_medical_status_scan_inactive (synNo : String) (today : Date)
    (l : List Row)
    (h : ∀ r ∈ l, rowSynIs synNo r = true → rowInactive today r = true) :
    ∀ v, get_medical_status_scan synNo today l = Except.ok v → v = none := by
  induction l with
  | nil =>
    intro v hv
    rw [get_medical_status_scan] at hv
    exact (Except.ok.inj hv).symm
  | cons row rest ih =>
    have hrest : ∀ r ∈ rest, rowSynIs synNo r = true → rowInactive today r = true :=
      fun r hr => h r (List.mem_cons_of_mem row hr)
    intro v hv
    rw [get_medical_status_scan] at hv
    cases hl : List.lookup "SYN NO" row with
    | none => simp [dictGet, hl] at hv
    | some s =>
      simp only [dictGet, hl] at hv
      by_cases hm : s = synNo
      · subst hm
        have hsyn : rowSynIs s row = true := by simp [rowSynIs, hl]
        have hin := h row (List.mem_cons_self row rest) hsyn
        have hnone : strptimeDMY "" = none := rfl
        cases hlsd : List.lookup "Start Date" row with
        | none => simp [rowInactive, rowGet, hlsd, hnone] at hin
        | some sdS =>
          cases hled : List.lookup "End Date" row with
          | none => simp [rowInactive, rowGet, hled, hnone] at hin
          | some edS =>
            have hrgS : rowGet row "Start Date" = sdS := by simp [rowGet, hlsd]
            have hrgE : rowGet row "End Date" = edS := by simp [rowGet, hled]
            simp only [rowInactive, hrgS, hrgE] at hin
            cases hps : strptimeDMY sdS with
            | none => simp [hps] at hin
            | some sd =>
              cases hpe : strptimeDMY edS with
              | none => simp [hps, hpe] at hin
              | some ed =>
                simp only [hps, hpe] at hin
                have hcond : (dateLe sd today && dateLe today ed) = false := by
                  rw [dateLt_eq_not_dateLe, dateLt_eq_not_dateLe] at hin
                  simp only [Bool.or_eq_true] at hin
                  rcases hin with h' | h'
                  · rw [Bool.not_eq_true'] at h'
                    simp [h']
                  · rw [Bool.not_eq_true'] at h'
                    simp [h']
                simp only [dictGet, hlsd, hled, strptimeE, hps, hpe,
                  if_pos rfl, hcond, Bool.false_eq_true, if_false] at hv
                exact ih hrest v hv
      · simp only [if_neg hm] at hv
        exact ih hrest v hv

/-- Claim C5: an entry is active exactly when start <= today <= end,
both endpoints inclusive — a single matching well-formed entry resolves
to its status on exactly those days — and an identifier whose every
matching entry has end before today or start after today resolves to
absent. -/
theorem get_medical_status_inclusive_interval :
    (∀ (synNo : String) (log : List Row) (today : Date),
      (∀ r ∈ log, rowSynIs synNo r = true → rowInactive today r = true) →
      get_medical_status synNo (Except.ok log) today = none)
    ∧ (∀ (synNo label sdS edS : String) (sd ed : Date) (today : Date),
      strptimeDMY sdS = some sd → strptimeDMY edS = some ed →
      get_medical_status synNo
        (Except.ok [[("SYN NO", synNo), ("Medical Status", label),
                     ("Start Date", sdS), ("End Date", edS)]]) today
        = (if dateLe sd today && dateLe today ed
           then some ("STATUS: " ++ label ++ " (" ++ sdS ++ " - " ++ edS ++ ")")
           else none)) := by
  constructor
  · intro synNo log today h
    have hrev : ∀ r ∈ log.reverse, rowSynIs synNo r = true → rowInactive today r = true :=
      fun r hr => h r (List.mem_reverse.mp hr)
    show (match get_medical_status_scan synNo today log.reverse with
          | Except.ok v => v
          | Except.error _ => none) = none
    cases hscan : get_medical_status_scan synNo today log.reverse with
    | error e => rfl
    | ok v =>
      simp only []
      exact get_medical_status_scan_inactive synNo today log.reverse hrev v hscan
  · intro synNo label sdS edS sd ed today hs he
    have h1 : dictGet [("SYN NO", synNo), ("Medical Status", label),
        ("Start Date", sdS), ("End Date", edS)] "SYN NO" = Except.ok synNo := rfl
    have h2 : dictGet [("SYN NO", synNo), ("Medical Status", label),
        ("Start Date", sdS), ("End Date", edS)] "Start Date" = Except.ok sdS := rfl
    have h3 : dictGet [("SYN NO", synNo), ("Medical Status", label),
        ("Start Date", sdS), ("End Date", edS)] "End Date" = Except.ok edS := rfl
    have h4 : dictGet [("SYN NO", synNo), ("Medical Status", label),
        ("Start Date", sdS), ("End Date", edS)] "Medical Status" = Except.ok label := rfl
    have hscan : get_medical_status_scan synNo today
        [[("SYN NO", synNo), ("Medical Status", label),
          ("Start Date", sdS), ("End Date", edS)]]
        = (if dateLe sd today && dateLe today ed
           then Except.ok (some ("STATUS: " ++ label ++ " (" ++ sdS ++ " - " ++ edS ++ ")"))
           else Except.ok none) := by
      rw [get_medical_status_scan]
      simp only [h1, h2, h3, h4, strptimeE, hs, he, if_pos rfl]
      split
      · rfl
      · exact absurd trivial (by assumption)
    show (match get_medical_status_scan synNo today
            [[("SYN NO", synNo), ("Medical Status", label),
              ("Start Date", sdS), ("End Date", edS)]].reverse with
          | Except.ok v => v
          | Except.error _ => none) = _
    rw [List.reverse_singleton, hscan]
    cases hc : dateLe sd today && dateLe today ed <;> simp [hc]

/-- Witness for C5: the MC entry 01/01/2024 - 10/01/2024 is still active
on its last day 10/01/2024 (inclusive end), and on 11/01/2024 the
identifier resolves to absent. -/
theorem get_medical_status_inclusive_interval_witness :
    get_medical_status "A123" (Except.ok [rowMC]) ⟨2024, 1, 10⟩
        = some "STATUS: MC (01/01/2024 - 10/01/2024)"
    ∧ get_medical_status "A123" (Except.ok [rowMC]) ⟨2024, 1, 11⟩ = none := by
  constructor
  · have h := get_medical_status_inclusive_interval.2 "A123" "MC"
      "01/01/2024" "10/01/2024" ⟨2024, 1, 1⟩ ⟨2024, 1, 10⟩ ⟨2024, 1, 10⟩ rfl rfl
    simpa [rowMC] using h
  · exact get_medical_status_inclusive_interval.1 "A123" [rowMC] ⟨2024, 1, 11⟩ (by decide)

/-- StatusLog row for a given identifier whose start date string does
not parse. -/
def rowBadFor (synNo : String) : Row :=
  [("SYN NO", synNo), ("Medical Status", "MC"),
   ("Start Date", "not-a-date"), ("End Date", "10/01/2024")]

/-- Claim C1 counterexample: with the log [malformed, valid-active,
malformed] for A123 queried on 05/01/2024, the scan hits the
last-submitted malformed entry first and aborts with no status, even
though a valid active entry exists later in the log than the first
malformed one; without the last malformed entry that valid entry is
found.  The claim says the malformed entry is treated as non-matching
and the later valid entry is still returned. -/
theorem get_medical_status_malformed_aborts_counterexample :
    get_medical_status "A123" (Except.ok [rowBadDate, rowMC, rowBadDate]) ⟨2024, 1, 5⟩ = none
    ∧ get_medical_status "A123" (Except.ok [rowBadDate, rowMC]) ⟨2024, 1, 5⟩
        = some "STATUS: MC (01/01/2024 - 10/01/2024)" :=
  ⟨rfl, rfl⟩

/-- Claim C1 amended: a malformed date in a matching entry does not
propagate an exception to the caller — the lookup returns None — but it
aborts the scan for that call: whatever entries were submitted before
the malformed one (scanned after it in reverse order), the result is
None. -/
theorem get_medical_status_malformed_aborts (synNo : String) (pre : List Row)
    (today : Date) :
    get_medical_status synNo (Except.ok (pre ++ [rowBadFor synNo])) today = none := by
  have hrev : (pre ++ [rowBadFor synNo]).reverse = rowBadFor synNo :: pre.reverse := by
    simp
  show (match get_medical_status_scan synNo today (pre ++ [rowBadFor synNo]).reverse with
        | Except.ok v => v
        | Except.error _ => none) = none
  rw [hrev, get_medical_status_scan]
  have h1 : dictGet (rowBadFor synNo) "SYN NO" = Except.ok synNo := rfl
  have h2 : dictGet (rowBadFor synNo) "Start Date" = Except.ok "not-a-date" := rfl
  have h3 : dictGet (rowBadFor synNo) "End Date" = Except.ok "10/01/2024" := rfl
  have h4 : strptimeE "not-a-date" = Except.error (PyErr.valueError "not-a-date") := rfl
  simp only [h1, h2, h3, h4, if_pos rfl, if_true]

/-- Rows whose stored SYN NO value differs from the uppercased query are
passed over by the search_user scan. -/
theorem search_user_scan_skip (q : String) (pre rest : List Row)
    (h : ∀ r ∈ pre, rowSynDiffers q r = true) :
    search_user_scan (pyUpper q) (pre ++ rest) = search_user_scan (pyUpper q) rest := by
  induction pre with
  | nil => rfl
  | cons row pre ih =>
    have h0 := h row (List.mem_cons_self row pre)
    cases hl : List.lookup "SYN NO" row with
    | none => simp [rowSynDiffers, hl] at h0
    | some v =>
      simp only [rowSynDiffers, hl, bne_iff_ne, ne_eq] at h0
      show search_user_scan (pyUpper q) (row :: (pre ++ rest)) = _
      rw [search_user_scan]
      simp only [dictGet, hl, if_neg h0]
      exact ih fun r hr => h r (List.mem_cons_of_mem row hr)

/-- A row carrying the queried SYN NO at the head of the scan determines
the result: the rows after it are never inspected. -/
theorem search_user_scan_match_head (synNo : String) (row : Row) (rest : List Row)
    (h : List.lookup "SYN NO" row = some synNo) :
    search_user_scan synNo (row :: rest) = search_user_scan synNo [row] := by
  rw [search_user_scan, search_user_scan]
  simp only [dictGet, h, if_pos rfl, if_true]

/-- Claim C6: single lookup scans the roster linearly and the first
matching record wins — rows after the first match never affect the
result — and when no roster row matches, the reply is the "not found"
message whatever the StatusLog read returned. -/
theorem search_user_first_match_or_not_found :
    (∀ (q : String) (roster : List Row) (formRead : Except PyErr (List Row)) (today : Date),
      (∀ r ∈ roster, rowSynDiffers q r = true) →
      search_user [q] (Except.ok roster) formRead today = Except.ok "SYN NO not found.")
    ∧ (∀ (q : String) (pre post : List Row) (row : Row)
        (formRead : Except PyErr (List Row)) (today : Date),
      (∀ r ∈ pre, rowSynDiffers q r = true) →
      List.lookup "SYN NO" row = some (pyUpper q) →
      search_user [q] (Except.ok (pre ++ row :: post)) formRead today
        = search_user [q] (Except.ok [row]) formRead today) := by
  constructor
  · intro q roster formRead today h
    have hscan : search_user_scan (pyUpper q) roster = Except.ok none := by
      have := search_user_scan_skip q roster [] h
      rwa [List.append_nil] at this
    show (match search_user_scan (pyUpper q) roster with
          | Except.error e => Except.error e
          | Except.ok none => Except.ok "SYN NO not found."
          | Except.ok (some userDetails) =>
            match get_medical_status (pyUpper q) formRead today with
            | some latestStatus => Except.ok (userDetails ++ "\n" ++ latestStatus)
            | none => Except.ok userDetails) = Except.ok "SYN NO not found."
    rw [hscan]
  · intro q pre post row formRead today hpre hrow
    have hscan : search_user_scan (pyUpper q) (pre ++ row :: post)
        = search_user_scan (pyUpper q) [row] :=
      (search_user_scan_skip q pre (row :: post) hpre).trans
        (search_user_scan_match_head (pyUpper q) row post hrow)
    show (match search_user_scan (pyUpper q) (pre ++ row :: post) with
          | Except.error e => Except.error e
          | Except.ok none => Except.ok "SYN NO not found."
          | Except.ok (some userDetails) =>
            match get_medical_status (pyUpper q) formRead today with
            | some latestStatus => Except.ok (userDetails ++ "\n" ++ latestStatus)
            | none => Except.ok userDetails)
        = (match search_user_scan (pyUpper q) [row] with
          | Except.error e => Except.error e
          | Except.ok none => Except.ok "SYN NO not found."
          | Except.ok (some userDetails) =>
            match get_medical_status (pyUpper q) formRead today with
            | some latestStatus => Except.ok (userDetails ++ "\n" ++ latestStatus)
            | none => Except.ok userDetails)
    rw [hscan]

/-- A second roster row with the identifier A123, to exercise the
duplicate-identifier tie-break. -/
def rosterA2 : Row :=
  [("SYN NO", "A123"), ("RANK", "PTE"), ("NAME", "Koh"), ("PES", "E9")]

/-- Witness for C6: an identifier absent from the roster yields the not
found message even with a nonempty StatusLog, and with duplicate roster
rows for A123 the first one alone determines the reply. -/
theorem search_user_first_match_or_not_found_witness :
    search_user ["z123"] (Except.ok [rosterB, rosterA]) (Except.ok [rowMC]) ⟨2024, 1, 5⟩
        = Except.ok "SYN NO not found."
    ∧ search_user ["a123"] (Except.ok [rosterB, rosterA, rosterA2]) (Except.ok []) ⟨2024, 1, 5⟩
        = search_user ["a123"] (Except.ok [rosterA]) (Except.ok []) ⟨2024, 1, 5⟩ :=
  ⟨search_user_first_match_or_not_found.1 "z123" [rosterB, rosterA]
      (Except.ok [rowMC]) ⟨2024, 1, 5⟩ (by decide),
   search_user_first_match_or_not_found.2 "a123" [rosterB] [rosterA2] rosterA
      (Except.ok []) ⟨2024, 1, 5⟩ (by decide) rfl⟩

/-- Roster row stored in lowercase. -/
def rosterLower : Row :=
  [("SYN NO", "a123"), ("RANK", "CPL"), ("NAME", "Tan"), ("PES", "b2")]

/-- Claim C2 counterexample: the stored field value is not normalized —
a roster row stored as "a123"/"b2" is not found even by the identically
cased queries "a123"/"b2" (the query alone is uppercased to
"A123"/"B2"), while the uppercase-stored row is found.  Under the claim,
both comparisons would normalize both sides and match. -/
theorem search_case_normalization_counterexample :
    search_user ["a123"] (Except.ok [rosterLower]) (Except.ok []) ⟨2024, 1, 5⟩
        = Except.ok "SYN NO not found."
    ∧ search_pes ["b2"] (Except.ok [rosterLower]) (Except.ok []) ⟨2024, 1, 5⟩
        = Except.ok "No personnel found with this PES status."
    ∧ search_user ["a123"] (Except.ok [rosterA]) (Except.ok []) ⟨2024, 1, 5⟩
        = Except.ok "CPL Tan\nPES: B2" :=
  ⟨rfl, rfl, rfl⟩

/-- Claim C2 amended: case normalization is applied to the query
argument only — two queries with the same uppercasing are
interchangeable in lookup-by-identifier and lookup-by-category — while
the stored value is compared verbatim against the uppercased query. -/
theorem search_query_upper_only (q1 q2 : String) (h : pyUpper q1 = pyUpper q2)
    (sheetRead formRead : Except PyErr (List Row)) (today : Date) :
    search_user [q1] sheetRead formRead today = search_user [q2] sheetRead formRead today
    ∧ search_pes [q1] sheetRead formRead today = search_pes [q2] sheetRead formRead today := by
  constructor
  · show (match sheetRead with
          | Except.error e => Except.error e
          | Except.ok data =>
            match search_user_scan (pyUpper q1) data with
            | Except.error e => Except.error e
            | Except.ok none => Except.ok "SYN NO not found."
            | Except.ok (some userDetails) =>
              match get_medical_status (pyUpper q1) formRead today with
              | some latestStatus => Except.ok (userDetails ++ "\n" ++ latestStatus)
              | none => Except.ok userDetails)
        = (match sheetRead with
          | Except.error e => Except.error e
          | Except.ok data =>
            match search_user_scan (pyUpper q2) data with
            | Except.error e => Except.error e
            | Except.ok none => Except.ok "SYN NO not found."
            | Except.ok (some userDetails) =>
              match get_medical_status (pyUpper q2) formRead today with
              | some latestStatus => Except.ok (userDetails ++ "\n" ++ latestStatus)
              | none => Except.ok userDetails)
    rw [h]
  · show (match sheetRead with
          | Except.error e => Except.error e
          | Except.ok data =>
            match search_pes_scan (pyUpper q1) formRead today data with
            | Except.error e => Except.error e
            | Except.ok response =>
              Except.ok (if response = "" then "No personnel found with this PES status."
                         else response))
        = (match sheetRead with
          | Except.error e => Except.error e
          | Except.ok data =>
            match search_pes_scan (pyUpper q2) formRead today data with
            | Except.error e => Except.error e
            | Except.ok response =>
              Except.ok (if response = "" then "No personnel found with this PES status."
                         else response))
    rw [h]

/-- Witness for C2 amended: the queries a123 and A123 (and b2 and B2)
give identical replies. -/
theorem search_query_upper_only_witness :
    pyUpper "a123" = pyUpper "A123"
    ∧ search_user ["a123"] (Except.ok [rosterA]) (Except.ok []) ⟨2024, 1, 5⟩
        = search_user ["A123"] (Except.ok [rosterA]) (Except.ok []) ⟨2024, 1, 5⟩
    ∧ search_pes ["b2"] (Except.ok [rosterA]) (Except.ok []) ⟨2024, 1, 5⟩
        = search_pes ["B2"] (Except.ok [rosterA]) (Except.ok []) ⟨2024, 1, 5⟩ :=
  ⟨rfl,
   (search_query_upper_only "a123" "A123" rfl (Except.ok [rosterA]) (Except.ok [])
      ⟨2024, 1, 5⟩).1,
   (search_query_upper_only "b2" "B2" rfl (Except.ok [rosterA]) (Except.ok [])
      ⟨2024, 1, 5⟩).2⟩

/-- Claim C3 counterexample: a failed read of the status source yields
None from get_medical_status, the very same outcome as an empty log — no
distinct data-unavailable outcome exists — and a failed roster read in
search_user propagates as the raised exception rather than being
surfaced as a distinct outcome of the call. -/
theorem read_failure_indistinct_counterexample :
    get_medical_status "A123" (Except.error PyErr.apiError) ⟨2024, 1, 5⟩ = none
    ∧ get_medical_status "A123" (Except.ok []) ⟨2024, 1, 5⟩ = none
    ∧ search_user ["A123"] (Except.error PyErr.apiError) (Except.ok []) ⟨2024, 1, 5⟩
        = Except.error PyErr.apiError :=
  ⟨rfl, rfl, rfl⟩

/-- Claim C3 amended: a read failure of the status source is absorbed
inside get_medical_status and yields None, indistinguishable from "no
active status"; a read failure of the roster propagates out of
search_user, search_pes and show_all as the exception itself, with no
distinct data-unavailable reply. -/
theorem read_failure_behavior :
    (∀ (synNo : String) (e : PyErr) (today : Date),
      get_medical_status synNo (Except.error e) today = none)
    ∧ (∀ (q : String) (e : PyErr) (formRead : Except PyErr (List Row)) (today : Date),
      search_user [q] (Except.error e) formRead today = Except.error e)
    ∧ (∀ (q : String) (e : PyErr) (formRead : Except PyErr (List Row)) (today : Date),
      search_pes [q] (Except.error e) formRead today = Except.error e)
    ∧ (∀ (e : PyErr) (formRead : Except PyErr (List Row)) (today : Date),
      show_all (Except.error e) formRead today = Except.error e) :=
  ⟨fun _ _ _ => rfl, fun _ _ _ _ => rfl, fun _ _ _ _ => rfl, fun _ _ _ => rfl⟩

/-- Roster row missing the SYN NO column. -/
def rowNoSyn : Row :=
  [("RANK", "CPL"), ("NAME", "Tan"), ("PES", "B2")]

/-- Roster row missing the PES column. -/
def rowNoPes : Row :=
  [("SYN NO", "A123"), ("RANK", "CPL"), ("NAME", "Tan")]

/-- Roster row whose expected fields are all blank. -/
def rowBlank : Row :=
  [("SYN NO", ""), ("RANK", ""), ("NAME", ""), ("PES", "")]

/-- Claim C9 counterexample: a roster row missing an expected column
makes lookup-by-identifier and lookup-by-category raise a KeyError that
propagates — the row is not skipped, and the matching row placed after
it is never reached. -/
theorem missing_field_raises_counterexample :
    search_user ["A123"] (Except.ok [rowNoSyn, rosterA]) (Except.ok []) ⟨2024, 1, 5⟩
        = Except.error (PyErr.keyError "SYN NO")
    ∧ search_pes ["B2"] (Except.ok [rowNoPes, rosterA]) (Except.ok []) ⟨2024, 1, 5⟩
        = Except.error (PyErr.keyError "PES") :=
  ⟨rfl, rfl⟩

/-- Claim C9 amended: a roster row with blank expected fields does not
raise — it cannot match a nonempty query, so the scan passes over it —
but a row missing an expected column altogether raises a KeyError which
propagates out of lookup-by-identifier and lookup-by-category instead of
the row being skipped. -/
theorem malformed_row_behavior :
    (∀ (q : String) (rest : List Row) (formRead : Except PyErr (List Row)) (today : Date),
      pyUpper q ≠ "" →
      search_user [q] (Except.ok (rowBlank :: rest)) formRead today
        = search_user [q] (Except.ok rest) formRead today)
    ∧ (∀ (q : String) (rest : List Row) (formRead : Except PyErr (List Row)) (today : Date),
      pyUpper q ≠ "" →
      search_pes [q] (Except.ok (rowBlank :: rest)) formRead today
        = search_pes [q] (Except.ok rest) formRead today)
    ∧ (∀ (q : String) (rest : List Row) (formRead : Except PyErr (List Row)) (today : Date),
      search_user [q] (Except.ok (rowNoSyn :: rest)) formRead today
        = Except.error (PyErr.keyError "SYN NO"))
    ∧ (∀ (q : String) (rest : List Row) (formRead : Except PyErr (List Row)) (today : Date),
      search_pes [q] (Except.ok (rowNoPes :: rest)) formRead today
        = Except.error (PyErr.keyError "PES")) := by
  refine ⟨?_, ?_, ?_, ?_⟩
  · intro q rest formRead today h
    have hscan : search_user_scan (pyUpper q) (rowBlank :: rest)
        = search_user_scan (pyUpper q) rest := by
      rw [search_user_scan]
      have h1 : dictGet rowBlank "SYN NO" = Except.ok "" := rfl
      simp only [h1]
      rw [if_neg fun he => h he.symm]
    show (match search_user_scan (pyUpper q) (rowBlank :: rest) with
          | Except.error e => Except.error e
          | Except.ok none => Except.ok "SYN NO not found."
          | Except.ok (some userDetails) =>
            match get_medical_status (pyUpper q) formRead today with
            | some latestStatus => Except.ok (userDetails ++ "\n" ++ latestStatus)
            | none => Except.ok userDetails)
        = _
    rw [hscan]
    rfl
  · intro q rest formRead today h
    have hscan : search_pes_scan (pyUpper q) formRead today (rowBlank :: rest)
        = search_pes_scan (pyUpper q) formRead today rest := by
      rw [search_pes_scan]
      have h1 : dictGet rowBlank "PES" = Except.ok "" := rfl
      simp only [h1]
      rw [if_neg fun he => h he.symm]
    show (match search_pes_scan (pyUpper q) formRead today (rowBlank :: rest) with
          | Except.error e => Except.error e
          | Except.ok response =>
            Except.ok (if response = "" then "No personnel found with this PES status."
                       else response))
        = _
    rw [hscan]
    rfl
  · intro q rest formRead today
    have hscan : search_user_scan (pyUpper q) (rowNoSyn :: rest)
        = Except.error (PyErr.keyError "SYN NO") := by
      rw [search_user_scan]
      rfl
    show (match search_user_scan (pyUpper q) (rowNoSyn :: rest) with
          | Except.error e => Except.error e
          | Except.ok none => Except.ok "SYN NO not found."
          | Except.ok (some userDetails) =>
            match get_medical_status (pyUpper q) formRead today with
            | some latestStatus => Except.ok (userDetails ++ "\n" ++ latestStatus)
            | none => Except.ok userDetails)
        = Except.error (PyErr.keyError "SYN NO")
    rw [hscan]
  · intro q rest formRead today
    have hscan : search_pes_scan (pyUpper q) formRead today (rowNoPes :: rest)
        = Except.error (PyErr.keyError "PES") := by
      rw [search_pes_scan]
      rfl
    show (match search_pes_scan (pyUpper q) formRead today (rowNoPes :: rest) with
          | Except.error e => Except.error e
          | Except.ok response =>
            Except.ok (if response = "" then "No personnel found with this PES status."
                       else response))
        = Except.error (PyErr.keyError "PES")
    rw [hscan]

/-- Witness for C9 amended: blank rows are passed over without raising;
rows missing a column raise a propagating KeyError. -/
theorem malformed_row_behavior_witness :
    search_user ["a1"] (Except.ok [rowBlank]) (Except.ok []) ⟨2024, 1, 5⟩
        = search_user ["a1"] (Except.ok []) (Except.ok []) ⟨2024, 1, 5⟩
    ∧ search_pes ["b2"] (Except.ok [rowBlank]) (Except.ok []) ⟨2024, 1, 5⟩
        = search_pes ["b2"] (Except.ok []) (Except.ok []) ⟨2024, 1, 5⟩
    ∧ search_user ["a1"] (Except.ok [rowNoSyn]) (Except.ok []) ⟨2024, 1, 5⟩
        = Except.error (PyErr.keyError "SYN NO")
    ∧ search_pes ["b2"] (Except.ok [rowNoPes]) (Except.ok []) ⟨2024, 1, 5⟩
        = Except.error (PyErr.keyError "PES") :=
  ⟨malformed_row_behavior.1 "a1" [] (Except.ok []) ⟨2024, 1, 5⟩ (by decide),
   malformed_row_behavior.2.1 "b2" [] (Except.ok []) ⟨2024, 1, 5⟩ (by decide),
   malformed_row_behavior.2.2.1 "a1" [] (Except.ok []) ⟨2024, 1, 5⟩,
   malformed_row_behavior.2.2.2 "b2" [] (Except.ok []) ⟨2024, 1, 5⟩⟩

/-- A composed block is never the empty string: it always carries the
two-character blank-line separator. -/
theorem composeBlock_ne_empty (formRead : Except PyErr (List Row)) (today : Date)
    (row : Row) : composeBlock formRead today row ≠ "" := by
  intro hc
  have hlen := congrArg String.length hc
  rw [composeBlock, String.length_append] at hlen
  have h2 : ("\n\n" : String).length = 2 := rfl
  rw [h2] at hlen
  have h0 : ("" : String).length = 0 := rfl
  rw [h0] at hlen
  omega

/-- The category scan composes, in roster order, exactly the blocks of
the rows whose PES field equals the query code, on a segment whose rows
carry the PES column and whose matching rows are complete. -/
theorem search_pes_scan_eq (pesCode : String) (formRead : Except PyErr (List Row))
    (today : Date) (l : List Row)
    (hp : ∀ r ∈ l, (List.lookup "PES" r).isSome = true)
    (hc : ∀ r ∈ l, rowGet r "PES" = pesCode → rowComplete r = true) :
    search_pes_scan pesCode formRead today l
      = Except.ok (joinBlocks ((l.filter fun r => rowGet r "PES" == pesCode).map
          (composeBlock formRead today))) := by
  induction l with
  | nil => rfl
  | cons row rest ih =>
    have hpr : ∀ r ∈ rest, (List.lookup "PES" r).isSome = true :=
      fun r hr => hp r (List.mem_cons_of_mem row hr)
    have hcr : ∀ r ∈ rest, rowGet r "PES" = pesCode → rowComplete r = true :=
      fun r hr => hc r (List.mem_cons_of_mem row hr)
    obtain ⟨p, hpl⟩ := Option.isSome_iff_exists.mp (hp row (List.mem_cons_self row rest))
    have hrg : rowGet row "PES" = p := by simp [rowGet, hpl]
    rw [search_pes_scan]
    simp only [dictGet, hpl]
    by_cases hm : p = pesCode
    · have hcomplete := hc row (List.mem_cons_self row rest) (hrg.trans hm)
      simp only [rowComplete, Bool.and_eq_true] at hcomplete
      obtain ⟨⟨⟨hsynS, hrankS⟩, hnameS⟩, _⟩ := hcomplete
      obtain ⟨syn, hsyn⟩ := Option.isSome_iff_exists.mp hsynS
      obtain ⟨rank, hrank⟩ := Option.isSome_iff_exists.mp hrankS
      obtain ⟨name, hname⟩ := Option.isSome_iff_exists.mp hnameS
      rw [if_pos hm]
      have hfil : ((row :: rest).filter fun r => rowGet r "PES" == pesCode)
          = row :: (rest.filter fun r => rowGet r "PES" == pesCode) :=
        List.filter_cons_of_pos (by simp [hrg, hm])
      rw [hfil]
      simp only [dictGet, hsyn, hrank, hname, ih hpr hcr]
      have hjoin : joinBlocks ((row :: rest.filter fun r => rowGet r "PES" == pesCode).map
            (composeBlock formRead today))
          = composeBlock formRead today row
            ++ joinBlocks ((rest.filter fun r => rowGet r "PES" == pesCode).map
                 (composeBlock formRead today)) := rfl
      rw [hjoin, composeBlock, composeBase]
      have hgR : rowGet row "RANK" = rank := by simp [rowGet, hrank]
      have hgN : rowGet row "NAME" = name := by simp [rowGet, hname]
      have hgS : rowGet row "SYN NO" = syn := by simp [rowGet, hsyn]
      rw [hgR, hgN, hgS, hrg, hm]
    · rw [if_neg hm]
      have hfil : ((row :: rest).filter fun r => rowGet r "PES" == pesCode)
          = rest.filter fun r => rowGet r "PES" == pesCode :=
        List.filter_cons_of_neg (by simp [hrg, hm])
      rw [hfil]
      exact ih hpr hcr

/-- Claim C7: category lookup replies with the composed blocks of
exactly the roster rows whose PES field matches the uppercased query, in
original roster order, and with the "no personnel found" message when
the filtered set is empty, on a roster whose rows carry the PES column
and whose matching rows are complete. -/
theorem search_pes_filtered_blocks (q : String) (roster : List Row)
    (formRead : Except PyErr (List Row)) (today : Date)
    (hp : ∀ r ∈ roster, (List.lookup "PES" r).isSome = true)
    (hc : ∀ r ∈ roster, rowGet r "PES" = pyUpper q → rowComplete r = true) :
    search_pes [q] (Except.ok roster) formRead today
      = Except.ok
          (if (roster.filter fun r => rowGet r "PES" == pyUpper q).isEmpty
           then "No personnel found with this PES status."
           else joinBlocks ((roster.filter fun r => rowGet r "PES" == pyUpper q).map
               (composeBlock formRead today))) := by
  have hscan := search_pes_scan_eq (pyUpper q) formRead today roster hp hc
  show (match search_pes_scan (pyUpper q) formRead today roster with
        | Except.error e => Except.error e
        | Except.ok response =>
          Except.ok (if response = "" then "No personnel found with this PES status."
                     else response)) = _
  rw [hscan]
  cases hf : roster.filter fun r => rowGet r "PES" == pyUpper q with
  | nil => rfl
  | cons r0 rs =>
    have hblock : joinBlocks ((r0 :: rs).map (composeBlock formRead today))
        = composeBlock formRead today r0
          ++ joinBlocks (rs.map (composeBlock formRead today)) := rfl
    have hne : joinBlocks ((r0 :: rs).map (composeBlock formRead today)) ≠ "" := by
      rw [hblock]
      intro hcontra
      have hlen := congrArg String.length hcontra
      rw [String.length_append, composeBlock, String.length_append] at hlen
      have h2 : ("\n\n" : String).length = 2 := rfl
      have h0 : ("" : String).length = 0 := rfl
      rw [h2, h0] at hlen
      omega
    simp only [List.isEmpty_cons, if_neg hne]
    rfl

/-- Witness for C7: the B2 query composes the single matching block with
its active status; the unmatched query Z9 yields the no-personnel
message. -/
theorem search_pes_filtered_blocks_witness :
    search_pes ["b2"] (Except.ok [rosterB, rosterA]) (Except.ok [rowMC]) ⟨2024, 1, 5⟩
        = Except.ok "CPL Tan\nPES: B2\nSTATUS: MC (01/01/2024 - 10/01/2024)\n\n"
    ∧ search_pes ["z9"] (Except.ok [rosterB, rosterA]) (Except.ok [rowMC]) ⟨2024, 1, 5⟩
        = Except.ok "No personnel found with this PES status." := by
  constructor
  · rw [search_pes_filtered_blocks "b2" [rosterB, rosterA] (Except.ok [rowMC])
      ⟨2024, 1, 5⟩ (by decide) (by decide)]
    rfl
  · rw [search_pes_filtered_blocks "z9" [rosterB, rosterA] (Except.ok [rowMC])
      ⟨2024, 1, 5⟩ (by decide) (by decide)]
    rfl

/-- The list-all scan composes one block per row, in order, on a segment
of complete rows. -/
theorem show_all_scan_eq (formRead : Except PyErr (List Row)) (today : Date)
    (l : List Row) (hc : ∀ r ∈ l, rowComplete r = true) :
    show_all_scan formRead today l
      = Except.ok (joinBlocks (l.map (composeBlock formRead today))) := by
  induction l with
  | nil => rfl
  | cons row rest ih =>
    have hcr : ∀ r ∈ rest, rowComplete r = true :=
      fun r hr => hc r (List.mem_cons_of_mem row hr)
    have hcomplete := hc row (List.mem_cons_self row rest)
    simp only [rowComplete, Bool.and_eq_true] at hcomplete
    obtain ⟨⟨⟨hsynS, hrankS⟩, hnameS⟩, hpesS⟩ := hcomplete
    obtain ⟨syn, hsyn⟩ := Option.isSome_iff_exists.mp hsynS
    obtain ⟨rank, hrank⟩ := Option.isSome_iff_exists.mp hrankS
    obtain ⟨name, hname⟩ := Option.isSome_iff_exists.mp hnameS
    obtain ⟨pes, hpes⟩ := Option.isSome_iff_exists.mp hpesS
    rw [show_all_scan]
    simp only [dictGet, hsyn, hrank, hname, hpes, ih hcr]
    have hjoin : joinBlocks ((row :: rest).map (composeBlock formRead today))
        = composeBlock formRead today row
          ++ joinBlocks (rest.map (composeBlock formRead today)) := rfl
    rw [hjoin, composeBlock, composeBase]
    have hgR : rowGet row "RANK" = rank := by simp [rowGet, hrank]
    have hgN : rowGet row "NAME" = name := by simp [rowGet, hname]
    have hgS : rowGet row "SYN NO" = syn := by simp [rowGet, hsyn]
    have hgP : rowGet row "PES" = pes := by simp [rowGet, hpes]
    rw [hgR, hgN, hgS, hgP]

/-- Claim C8: list-all replies with exactly one composed block per
roster row, in roster order, whether or not a status resolves for the
row, on a roster of complete rows. -/
theorem show_all_one_block_per_row (roster : List Row)
    (formRead : Except PyErr (List Row)) (today : Date)
    (hc : ∀ r ∈ roster, rowComplete r = true) :
    show_all (Except.ok roster) formRead today
      = Except.ok (joinBlocks (roster.map (composeBlock formRead today))) := by
  show show_all_scan formRead today roster = _
  exact show_all_scan_eq formRead today roster hc

/-- Witness for C8: two roster rows give two blocks in roster order, the
second with its status line, the first without. -/
theorem show_all_one_block_per_row_witness :
    show_all (Except.ok [rosterB, rosterA]) (Except.ok [rowMC]) ⟨2024, 1, 5⟩
      = Except.ok
          "SGT Lim\nPES: C1\n\nCPL Tan\nPES: B2\nSTATUS: MC (01/01/2024 - 10/01/2024)\n\n" := by
  rw [show_all_one_block_per_row [rosterB, rosterA] (Except.ok [rowMC]) ⟨2024, 1, 5⟩
    (by decide)]
  rfl

/-- Outcomes of the status scan on any segment: no hit, a raised
exception, or the formatted status of a matching active row of the
segment. -/
theorem get_medical_status_scan_cases (synNo : String) (today : Date)
    (l : List Row) :
    get_medical_status_scan synNo today l = Except.ok none
    ∨ (∃ e, get_medical_status_scan synNo today l = Except.error e)
    ∨ (∃ r ∈ l, rowSynIs synNo r = true ∧ rowActive today r = true ∧
        get_medical_status_scan synNo today l = Except.ok (some (fmtRow r))) := by
  induction l with
  | nil => exact Or.inl rfl
  | cons row rest ih =>
    rw [get_medical_status_scan]
    cases hl : List.lookup "SYN NO" row with
    | none =>
      exact Or.inr (Or.inl ⟨PyErr.keyError "SYN NO", by simp [dictGet, hl]⟩)
    | some s =>
      simp only [dictGet, hl]
      by_cases hm : s = synNo
      · rw [if_pos hm]
        cases hsd : List.lookup "Start Date" row with
        | none => exact Or.inr (Or.inl ⟨PyErr.keyError "Start Date", rfl⟩)
        | some sdS =>
          cases hed : List.lookup "End Date" row with
          | none => exact Or.inr (Or.inl ⟨PyErr.keyError "End Date", rfl⟩)
          | some edS =>
            cases hps : strptimeDMY sdS with
            | none =>
              exact Or.inr (Or.inl ⟨PyErr.valueError sdS, by simp [strptimeE, hps]⟩)
            | some sd =>
              cases hpe : strptimeDMY edS with
              | none =>
                exact Or.inr (Or.inl ⟨PyErr.valueError edS, by simp [strptimeE, hps, hpe]⟩)
              | some ed =>
                simp only [strptimeE, hps, hpe]
                cases hcond : dateLe sd today && dateLe today ed with
                | false =>
                  rcases ih with h | ⟨e, h⟩ | ⟨r, hr, hsynr, hactr, h⟩
                  · exact Or.inl h
                  · exact Or.inr (Or.inl ⟨e, h⟩)
                  · exact Or.inr (Or.inr ⟨r, List.mem_cons_of_mem row hr, hsynr, hactr, h⟩)
                | true =>
                  cases hms : List.lookup "Medical Status" row with
                  | none => exact Or.inr (Or.inl ⟨PyErr.keyError "Medical Status", rfl⟩)
                  | some ms =>
                    refine Or.inr (Or.inr ⟨row, List.mem_cons_self row rest, ?_, ?_, ?_⟩)
                    · simp [rowSynIs, hl, hm]
                    · have hgS : rowGet row "Start Date" = sdS := by simp [rowGet, hsd]
                      have hgE : rowGet row "End Date" = edS := by simp [rowGet, hed]
                      simp [rowActive, hgS, hgE, hps, hpe, hcond]
                    · have hgS : rowGet row "Start Date" = sdS := by simp [rowGet, hsd]
                      have hgE : rowGet row "End Date" = edS := by simp [rowGet, hed]
                      have hgM : rowGet row "Medical Status" = ms := by simp [rowGet, hms]
                      simp [fmtRow, hgS, hgE, hgM]
      · rw [if_neg hm]
        rcases ih with h | ⟨e, h⟩ | ⟨r, hr, hsynr, hactr, h⟩
        · exact Or.inl h
        · exact Or.inr (Or.inl ⟨e, h⟩)
        · exact Or.inr (Or.inr ⟨r, List.mem_cons_of_mem row hr, hsynr, hactr, h⟩)

/-- Claim C10: get_medical_status is total at its interface — for every
identifier, every state of the status source and every date it returns
None or a formatted status of an actual matching active log row, and
never propagates an exception (the try/except turns every raised error
into None). -/
theorem get_medical_status_total (synNo : String)
    (formRead : Except PyErr (List Row)) (today : Date) :
    get_medical_status synNo formRead today = none
    ∨ ∃ rows r, formRead = Except.ok rows ∧ r ∈ rows ∧ rowSynIs synNo r = true
        ∧ rowActive today r = true
        ∧ get_medical_status synNo formRead today = some (fmtRow r) := by
  cases formRead with
  | error e => exact Or.inl rfl
  | ok rows =>
    rcases get_medical_status_scan_cases synNo today rows.reverse
      with h | ⟨e, h⟩ | ⟨r, hr, hsynr, hactr, h⟩
    · refine Or.inl ?_
      show (match get_medical_status_scan synNo today rows.reverse with
            | Except.ok v => v
            | Except.error _ => none) = none
      rw [h]
    · refine Or.inl ?_
      show (match get_medical_status_scan synNo today rows.reverse with
            | Except.ok v => v
            | Except.error _ => none) = none
      rw [h]
    · refine Or.inr ⟨rows, r, rfl, List.mem_reverse.mp hr, hsynr, hactr, ?_⟩
      show (match get_medical_status_scan synNo today rows.reverse with
            | Except.ok v => v
            | Except.error _ => none) = some (fmtRow r)
      rw [h]
